import Mathlib

set_option maxRecDepth 200000

/-!
Verification development for an OpenFlow 0.8.x-class software switch.

The repository contains two sibling implementations of the forwarding and
control-protocol engines: a user-space switch (switch/datapath.c,
switch/switch-flow.c, lib/flow.c) and a kernel datapath (datapath/forward.c,
datapath/flow.c, datapath/table-hash.c).  Both are embedded below; userspace
code lives in namespace `Sw`, kernel code in namespace `Dk`.

Machine integers are modelled as `Nat` with explicit truncation: for a
`uint16_t` value `x`, the C expression `~x` is `0xffff - x`, `x >> 16` is
`x / 0x10000`, assignment-truncation is `% 0x10000`; likewise `id & 0xff`
is `id % 0x100` and `id >> 8` is `id / 0x100` because the mask is the
low-bit mask of the divisor.
-/

namespace OpenFlow

/-! ## Wire-protocol constants

The OpenFlow header (include/openflow.h) is not part of the source tree;
these values follow the specification: the wire version is 0x83 and the
reserved port encodings are MAX = 0xff00, TABLE = 0xfff9, NORMAL = 0xfffa,
FLOOD = 0xfffb, ALL = 0xfffc, CONTROLLER = 0xfffd, LOCAL = 0xfffe,
NONE = 0xffff.  Message-type numbers follow this protocol generation's
numbering; no claim below depends on their concrete values, only on their
distinctness. -/

def OFP_VERSION : Nat := 0x83

def OFPP_MAX : Nat := 0xff00
def OFPP_TABLE : Nat := 0xfff9
def OFPP_NORMAL : Nat := 0xfffa
def OFPP_FLOOD : Nat := 0xfffb
def OFPP_ALL : Nat := 0xfffc
def OFPP_CONTROLLER : Nat := 0xfffd
def OFPP_LOCAL : Nat := 0xfffe
def OFPP_NONE : Nat := 0xffff

def OFPT_HELLO : Nat := 0
def OFPT_ERROR : Nat := 1
def OFPT_ECHO_REQUEST : Nat := 2
def OFPT_ECHO_REPLY : Nat := 3
def OFPT_VENDOR : Nat := 4
def OFPT_FEATURES_REQUEST : Nat := 5
def OFPT_FEATURES_REPLY : Nat := 6
def OFPT_GET_CONFIG_REQUEST : Nat := 7
def OFPT_GET_CONFIG_REPLY : Nat := 8
def OFPT_SET_CONFIG : Nat := 9
def OFPT_PACKET_IN : Nat := 10
def OFPT_FLOW_EXPIRED : Nat := 11
def OFPT_PORT_STATUS : Nat := 12
def OFPT_PACKET_OUT : Nat := 13
def OFPT_FLOW_MOD : Nat := 14
def OFPT_PORT_MOD : Nat := 15

def OFPR_NO_MATCH : Nat := 0
def OFPR_ACTION : Nat := 1

def OFP_VLAN_NONE : Nat := 0xffff
def ETH_TYPE_IP : Nat := 0x0800
def ETH_TYPE_ARP : Nat := 0x0806
def ETH_TYPE_VLAN : Nat := 0x8100
def OFP_DL_TYPE_ETH2_CUTOFF : Nat := 0x0600
def OFP_DL_TYPE_NOT_ETH_TYPE : Nat := 0x05ff
def VLAN_VID : Nat := 0x0fff
def IP_TYPE_TCP : Nat := 6
def IP_TYPE_UDP : Nat := 17
def IP_MF : Nat := 0x2000
def IP_OFFSET : Nat := 0x1fff

/-- Wildcard bit for the ingress port (OFPFW_IN_PORT). -/
def OFPFW_IN_PORT : Nat := 1 <<< 0

def OFPFW_DL_VLAN : Nat := 1 <<< 1

def OFPFW_DL_SRC : Nat := 1 <<< 2

def OFPFW_DL_DST : Nat := 1 <<< 3

def OFPFW_DL_TYPE : Nat := 1 <<< 4

def OFPFW_NW_PROTO : Nat := 1 <<< 5

def OFPFW_TP_SRC : Nat := 1 <<< 6

def OFPFW_TP_DST : Nat := 1 <<< 7

/-! ## Flow keys and match semantics

`struct sw_flow_key` carries the 10-tuple, the wildcard bitmap and the two
derived IPv4 prefix masks.  The match helpers below appear, with identical
logic, in switch/switch-flow.c (lines 46-85) and datapath/flow.c (lines
29-65); they are embedded once.  MAC addresses are modelled as lists of
bytes (memcmp / eth_addr_equals is list equality). -/

structure Flow where
  in_port : Nat
  dl_vlan : Nat
  dl_src : List Nat
  dl_dst : List Nat
  dl_type : Nat
  nw_src : Nat
  nw_dst : Nat
  nw_proto : Nat
  tp_src : Nat
  tp_dst : Nat

structure SwFlowKey where
  flow : Flow
  wildcards : Nat
  nw_src_mask : Nat
  nw_dst_mask : Nat

/-- Embedding of `flow_fields_match` (switch/switch-flow.c:46, datapath/flow.c:31). -/
def flow_fields_match (a b : Flow) (w src_mask dst_mask : Nat) : Bool :=
  (decide (w &&& OFPFW_IN_PORT ≠ 0) || decide (a.in_port = b.in_port))
  && (decide (w &&& OFPFW_DL_VLAN ≠ 0) || decide (a.dl_vlan = b.dl_vlan))
  && (decide (w &&& OFPFW_DL_SRC ≠ 0) || decide (a.dl_src = b.dl_src))
  && (decide (w &&& OFPFW_DL_DST ≠ 0) || decide (a.dl_dst = b.dl_dst))
  && (decide (w &&& OFPFW_DL_TYPE ≠ 0) || decide (a.dl_type = b.dl_type))
  && decide ((a.nw_src ^^^ b.nw_src) &&& src_mask = 0)
  && decide ((a.nw_dst ^^^ b.nw_dst) &&& dst_mask = 0)
  && (decide (w &&& OFPFW_NW_PROTO ≠ 0) || decide (a.nw_proto = b.nw_proto))
  && (decide (w &&& OFPFW_TP_SRC ≠ 0) || decide (a.tp_src = b.tp_src))
  && (decide (w &&& OFPFW_TP_DST ≠ 0) || decide (a.tp_dst = b.tp_dst))

/-- Embedding of `flow_matches_1wild`: fields equal modulo wildcards in `b`. -/
def flow_matches_1wild (a b : SwFlowKey) : Bool :=
  flow_fields_match a.flow b.flow b.wildcards b.nw_src_mask b.nw_dst_mask

/-- Embedding of `flow_matches_2wild`: fields equal modulo wildcards in `a` or `b`. -/
def flow_matches_2wild (a b : SwFlowKey) : Bool :=
  flow_fields_match a.flow b.flow (a.wildcards ||| b.wildcards)
    (a.nw_src_mask &&& b.nw_src_mask) (a.nw_dst_mask &&& b.nw_dst_mask)

theorem decide_congr {p q : Prop} [Decidable p] [Decidable q] (h : p ↔ q) :
    decide p = decide q := by
  simp [h]

/-- C9: the two-sided match predicate is symmetric: for all flow keys `a` and
`b` (each carrying its wildcard set and IPv4 source/destination masks),
`flow_matches_2wild a b = flow_matches_2wild b a`. -/
theorem flow_matches_2wild_symm (a b : SwFlowKey) :
    flow_matches_2wild a b = flow_matches_2wild b a := by
  unfold flow_matches_2wild flow_fields_match
  rw [Nat.lor_comm a.wildcards b.wildcards,
      Nat.land_comm a.nw_src_mask b.nw_src_mask,
      Nat.land_comm a.nw_dst_mask b.nw_dst_mask,
      Nat.xor_comm a.flow.nw_src b.flow.nw_src,
      Nat.xor_comm a.flow.nw_dst b.flow.nw_dst,
      decide_congr (p := a.flow.in_port = b.flow.in_port) eq_comm,
      decide_congr (p := a.flow.dl_vlan = b.flow.dl_vlan) eq_comm,
      decide_congr (p := a.flow.dl_src = b.flow.dl_src) eq_comm,
      decide_congr (p := a.flow.dl_dst = b.flow.dl_dst) eq_comm,
      decide_congr (p := a.flow.dl_type = b.flow.dl_type) eq_comm,
      decide_congr (p := a.flow.nw_proto = b.flow.nw_proto) eq_comm,
      decide_congr (p := a.flow.tp_src = b.flow.tp_src) eq_comm,
      decide_congr (p := a.flow.tp_dst = b.flow.tp_dst) eq_comm]

/-! ## Incremental checksum fix-up (switch/datapath.c:844-893)

`recalc_csum16` implements the RFC 1624 update HC' = ~(~HC + ~m + m') on
16-bit one's-complement checksums, with a single end-around-carry fold
written as `sum + (sum >> 16)` truncated to 16 bits.  `recalc_csum32`
chains two 16-bit updates for a 32-bit field. -/

/-- Embedding of `recalc_csum16` (switch/datapath.c:844).  All quantities are
uint16 except `sum`, which is uint32; bitwise complement of a uint16 `x` is
`0xffff - x`. -/
def recalc_csum16 (old_csum old_u16 new_u16 : Nat) : Nat :=
  let hc_complement := 0xffff - old_csum % 0x10000
  let m_complement := 0xffff - old_u16 % 0x10000
  let m_prime := new_u16 % 0x10000
  let sum := hc_complement + m_complement + m_prime
  let hc_prime_complement := (sum + sum / 0x10000) % 0x10000
  0xffff - hc_prime_complement

/-- Embedding of `recalc_csum32` (switch/datapath.c:862): two chained 16-bit
updates; the uint32 arguments are truncated to their low / high halves. -/
def recalc_csum32 (old_csum old_u32 new_u32 : Nat) : Nat :=
  recalc_csum16 (recalc_csum16 old_csum (old_u32 % 0x10000) (new_u32 % 0x10000))
    (old_u32 / 0x10000 % 0x10000) (new_u32 / 0x10000 % 0x10000)

/-- One step of 16-bit one's-complement addition with immediate end-around
carry; closed on [0, 0xffff]. -/
def add16 (x y : Nat) : Nat :=
  let s := x % 0x10000 + y % 0x10000
  s % 0x10000 + s / 0x10000

/-- Modelled from the spec: the from-scratch Internet checksum over the
16-bit words of a packet (the checksum field itself taken as zero) is the
one's complement of the one's-complement sum of the words.  The source tree
has no from-scratch recomputation routine; this is the reference the claim
compares against. -/
def csum_recompute (words : List Nat) : Nat :=
  0xffff - words.foldl add16 0

/-- Words covered by a checksum: a protocol word 0x0006, a length word
0x0014, a 16-bit field currently holding 0 (the field to be rewritten), and
a payload word 0xedb1.  Its valid checksum is 0x1234. -/
def csumBugWords : List Nat := [0x0006, 0x0014, 0x0000, 0xedb1]

/-- The same words after the third one is rewritten from 0x0000 to 0x1235. -/
def csumBugWordsModified : List Nat := [0x0006, 0x0014, 0x1235, 0xedb1]

/-- C8: evaluating the code at the failing input.  Over a packet whose valid
checksum is 0x1234, rewriting a 16-bit field from 0x0000 to 0x1235 makes the
intermediate `sum` equal 0x1ffff; the single truncated fold yields checksum
0xffff, while recomputation from scratch over the modified packet yields
0xfffe.  The incremental fix-up therefore does not agree with
recomputation (the doubly-overflowing end-around carry is dropped). -/
theorem recalc_csum16_diverges_from_recompute :
    csum_recompute csumBugWords = 0x1234
    ∧ csumBugWordsModified = csumBugWords.set 2 0x1235
    ∧ recalc_csum16 (csum_recompute csumBugWords) 0x0000 0x1235 = 0xffff
    ∧ csum_recompute csumBugWordsModified = 0xfffe := by
  refine ⟨by decide, by decide, by decide, by decide⟩

/-! ## Packet buffering (switch/datapath.c:1215-1282)

The buffer cache is a fixed ring of `N_PKT_BUFFERS` slots; a buffer ID packs
the slot index in its low `PKT_BUFFER_BITS` bits and the slot cookie above
them.  Packets are identified abstractly by a `Nat`; `buffer_clone` is the
identity on that identifier. -/

def PKT_BUFFER_BITS : Nat := 8

def N_PKT_BUFFERS : Nat := 1 <<< PKT_BUFFER_BITS

def PKT_COOKIE_BITS : Nat := 32 - PKT_BUFFER_BITS

def OVERWRITE_SECS : Nat := 1

structure PacketBuffer where
  buffer : Option Nat
  cookie : Nat
  timeout : Nat

structure BufferState where
  buffers : List PacketBuffer
  buffer_idx : Nat

def emptyPacketBuffer : PacketBuffer := ⟨none, 0, 0⟩

/-- The zero-initialised static array `buffers[N_PKT_BUFFERS]` with
`buffer_idx = 0`. -/
def initBufferState : BufferState :=
  ⟨List.replicate N_PKT_BUFFERS emptyPacketBuffer, 0⟩

/-- Embedding of `save_buffer` (switch/datapath.c:1228).  Returns the updated
state and the issued ID; `(uint32_t) -1 = 0xffffffff` signals that the slot
was occupied by an entry younger than OVERWRITE_SECS.  `(buffer_idx + 1) &
PKT_BUFFER_MASK` is `% N_PKT_BUFFERS`; `idx | (cookie << PKT_BUFFER_BITS)` is
`idx + cookie * N_PKT_BUFFERS` because `idx < N_PKT_BUFFERS`. -/
def save_buffer (st : BufferState) (now : Nat) (pkt : Nat) : BufferState × Nat :=
  let idx := (st.buffer_idx + 1) % N_PKT_BUFFERS
  let p := st.buffers.getD idx emptyPacketBuffer
  if p.buffer.isSome ∧ now < p.timeout then
    ({ st with buffer_idx := idx }, 0xffffffff)
  else
    let cookie := if p.cookie + 1 ≥ (1 <<< PKT_COOKIE_BITS) - 1 then 0 else p.cookie + 1
    ({ buffers := st.buffers.set idx ⟨some pkt, cookie, now + OVERWRITE_SECS⟩,
       buffer_idx := idx },
     idx + cookie * N_PKT_BUFFERS)

/-- Embedding of `retrieve_buffer` (switch/datapath.c:1255).  On a cookie
match the slot's packet (possibly already gone) is handed out and the slot
cleared; on a mismatch nothing happens. -/
def retrieve_buffer (st : BufferState) (id : Nat) : BufferState × Option Nat :=
  let idx := id % N_PKT_BUFFERS
  let p := st.buffers.getD idx emptyPacketBuffer
  if p.cookie = id / N_PKT_BUFFERS then
    ({ st with buffers :=
        st.buffers.set idx { buffer := none, cookie := p.cookie, timeout := p.timeout } },
     p.buffer)
  else
    (st, none)

/-- Embedding of `discard_buffer` (switch/datapath.c:1272). -/
def discard_buffer (st : BufferState) (id : Nat) : BufferState :=
  let idx := id % N_PKT_BUFFERS
  let p := st.buffers.getD idx emptyPacketBuffer
  if p.cookie = id / N_PKT_BUFFERS then
    { st with buffers :=
        st.buffers.set idx { buffer := none, cookie := p.cookie, timeout := p.timeout } }
  else st

/-- Operations on the shared buffer cache. -/
inductive BufferOp where
  | save (now pkt : Nat)
  | retrieve (id : Nat)
  | discard (id : Nat)

def applyBufferOp (st : BufferState) : BufferOp → BufferState
  | .save now pkt => (save_buffer st now pkt).1
  | .retrieve id => (retrieve_buffer st id).1
  | .discard id => discard_buffer st id

def runBufferOps (st : BufferState) : List BufferOp → BufferState
  | [] => st
  | op :: ops => runBufferOps (applyBufferOp st op) ops

/-- The operation, applied in state `st`, is a save that targets slot `s`
(saves advance the ring index first, so the targeted slot depends on the
state). -/
def savesToSlot (st : BufferState) (op : BufferOp) (s : Nat) : Prop :=
  match op with
  | .save _ _ => (st.buffer_idx + 1) % N_PKT_BUFFERS = s
  | _ => False

/-- No operation of the sequence, run from `st`, is a save targeting slot `s`. -/
def avoidsSlot (st : BufferState) (ops : List BufferOp) (s : Nat) : Prop :=
  match ops with
  | [] => True
  | op :: ops => ¬ savesToSlot st op s ∧ avoidsSlot (applyBufferOp st op) ops s

theorem getD_set_of_ne {α : Type} (l : List α) (i j : Nat) (a d : α) (h : i ≠ j) :
    (l.set i a).getD j d = l.getD j d := by
  induction l generalizing i j with
  | nil => simp [List.set]
  | cons x xs ih =>
    cases i with
    | zero =>
      cases j with
      | zero => exact absurd rfl h
      | succ j => simp [List.set, List.getD]
    | succ i =>
      cases j with
      | zero => simp [List.set, List.getD]
      | succ j =>
        simpa [List.set, List.getD] using ih i j (fun hh => h (by omega))

theorem getD_set_self_of_lt {α : Type} (l : List α) (i : Nat) (a d : α)
    (h : i < l.length) : (l.set i a).getD i d = a := by
  induction l generalizing i with
  | nil => simp at h
  | cons x xs ih =>
    cases i with
    | zero => simp [List.set, List.getD]
    | succ i => simpa [List.set, List.getD] using ih i (by simpa using h)

theorem getD_set_self_cases {α : Type} (l : List α) (i : Nat) (a d : α) :
    (l.set i a).getD i d = a ∨ (l.set i a).getD i d = d := by
  induction l generalizing i with
  | nil => right; cases i <;> rfl
  | cons x xs ih =>
    cases i with
    | zero => left; rfl
    | succ i => simpa [List.set, List.getD] using ih i

/-- Setting any slot to an element with no packet preserves "slot j holds no
packet". -/
theorem getD_set_buffer_none (l : List PacketBuffer) (i j : Nat) (b : PacketBuffer)
    (hb : b.buffer = none)
    (hl : (l.getD j emptyPacketBuffer).buffer = none) :
    ((l.set i b).getD j emptyPacketBuffer).buffer = none := by
  by_cases hij : i = j
  · subst hij
    rcases getD_set_self_cases l i b emptyPacketBuffer with h | h
    · rw [h]; exact hb
    · rw [h]; rfl
  · rw [getD_set_of_ne _ _ _ _ _ hij]; exact hl

/-- A retrieve against a slot whose packet is gone returns nothing, whatever
the cookie comparison says. -/
theorem retrieve_empty_slot (st : BufferState) (id : Nat)
    (h : (st.buffers.getD (id % N_PKT_BUFFERS) emptyPacketBuffer).buffer = none) :
    (retrieve_buffer st id).2 = none := by
  unfold retrieve_buffer
  dsimp only
  split
  · simpa using h
  · rfl

/-- Emptiness of a slot is preserved by any sequence of cache operations that
contains no save targeting that slot. -/
theorem slot_stays_empty (ops : List BufferOp) (st : BufferState) (s : Nat)
    (hbuf : (st.buffers.getD s emptyPacketBuffer).buffer = none)
    (havoid : avoidsSlot st ops s) :
    ((runBufferOps st ops).buffers.getD s emptyPacketBuffer).buffer = none := by
  induction ops generalizing st with
  | nil => exact hbuf
  | cons op ops ih =>
    obtain ⟨h1, h2⟩ := havoid
    refine ih (applyBufferOp st op) ?_ h2
    cases op with
    | save now pkt =>
      have hne : (st.buffer_idx + 1) % N_PKT_BUFFERS ≠ s := fun hh => h1 hh
      unfold applyBufferOp save_buffer
      dsimp only
      split
      · exact hbuf
      · rw [getD_set_of_ne _ _ _ _ _ hne]; exact hbuf
    | retrieve id =>
      unfold applyBufferOp retrieve_buffer
      dsimp only
      split
      · exact getD_set_buffer_none _ _ _ _ rfl hbuf
      · exact hbuf
    | discard id =>
      unfold applyBufferOp discard_buffer
      dsimp only
      split
      · exact getD_set_buffer_none _ _ _ _ rfl hbuf
      · exact hbuf

/-- C6: a buffer ID returned by a successful save is retrieved exactly once:
the first retrieve returns the saved packet and clears the slot, and any
later retrieve of the same ID — after arbitrary further cache operations
none of which is a save targeting that slot — returns nothing. -/
theorem save_retrieve_exactly_once (st st1 : BufferState) (now pkt id : Nat)
    (hlen : st.buffers.length = N_PKT_BUFFERS)
    (hsv : save_buffer st now pkt = (st1, id))
    (hid : id ≠ 0xffffffff) :
    (retrieve_buffer st1 id).2 = some pkt
    ∧ (((retrieve_buffer st1 id).1).buffers.getD (id % N_PKT_BUFFERS)
        emptyPacketBuffer).buffer = none
    ∧ ∀ ops, avoidsSlot (retrieve_buffer st1 id).1 ops (id % N_PKT_BUFFERS) →
        (retrieve_buffer (runBufferOps (retrieve_buffer st1 id).1 ops) id).2 = none := by
  unfold save_buffer at hsv
  dsimp only at hsv
  split at hsv
  · exact absurd (congrArg Prod.snd hsv).symm (by simpa using hid)
  · have hst1 := (congrArg Prod.fst hsv).symm
    have hidval := (congrArg Prod.snd hsv).symm
    dsimp only at hst1 hidval
    generalize hC : (if (st.buffers.getD ((st.buffer_idx + 1) % N_PKT_BUFFERS)
        emptyPacketBuffer).cookie + 1 ≥ (1 <<< PKT_COOKIE_BITS) - 1 then 0
        else (st.buffers.getD ((st.buffer_idx + 1) % N_PKT_BUFFERS)
          emptyPacketBuffer).cookie + 1) = cookie at hst1 hidval
    have hidxlt : (st.buffer_idx + 1) % N_PKT_BUFFERS < N_PKT_BUFFERS :=
      Nat.mod_lt _ (by decide)
    have hmod : id % N_PKT_BUFFERS = (st.buffer_idx + 1) % N_PKT_BUFFERS := by
      rw [hidval, Nat.add_mul_mod_self_right, Nat.mod_eq_of_lt hidxlt]
    have hdiv : id / N_PKT_BUFFERS = cookie := by
      rw [hidval, Nat.add_mul_div_right _ _ (by decide : 0 < N_PKT_BUFFERS),
          Nat.div_eq_of_lt hidxlt, Nat.zero_add]
    have hlen1 : st1.buffers.length = N_PKT_BUFFERS := by
      rw [hst1]; simpa using hlen
    have hslot : st1.buffers.getD (id % N_PKT_BUFFERS) emptyPacketBuffer
        = { buffer := some pkt, cookie := cookie, timeout := now + OVERWRITE_SECS } := by
      rw [hmod, hst1]
      exact getD_set_self_of_lt _ _ _ _ (by rw [hlen]; exact hidxlt)
    have hret2 : (retrieve_buffer st1 id).2 = some pkt := by
      unfold retrieve_buffer
      dsimp only
      rw [hslot, hdiv]
      simp
    have hret1 : (retrieve_buffer st1 id).1
        = { buffers := st1.buffers.set (id % N_PKT_BUFFERS)
              { buffer := none, cookie := cookie, timeout := now + OVERWRITE_SECS },
            buffer_idx := st1.buffer_idx } := by
      unfold retrieve_buffer
      dsimp only
      rw [hslot, hdiv]
      simp
    have hcleared : (((retrieve_buffer st1 id).1).buffers.getD (id % N_PKT_BUFFERS)
        emptyPacketBuffer).buffer = none := by
      rw [hret1]
      dsimp only
      rw [getD_set_self_of_lt _ _ _ _ (by rw [hlen1, hmod]; exact hidxlt)]
    refine ⟨hret2, hcleared, ?_⟩
    intro ops havoid
    exact retrieve_empty_slot _ _ (slot_stays_empty ops _ _ hcleared havoid)

/-- Witness for C6 at a concrete input: a fresh cache, one save at time 0 of
packet 42; the issued ID retrieves packet 42. -/
theorem save_retrieve_exactly_once_witness :
    (retrieve_buffer (save_buffer initBufferState 0 42).1
      (save_buffer initBufferState 0 42).2).2 = some 42 :=
  (save_retrieve_exactly_once initBufferState (save_buffer initBufferState 0 42).1 0 42
    (save_buffer initBufferState 0 42).2 (by decide) rfl (by decide)).1

/-! ## PACKET_IN on a classifier miss (switch/datapath.c:524-549, 748-764) -/

/-- The fields of an OFPT_PACKET_IN message as assembled by
`dp_output_control`; `payload_len` is the number of frame bytes carried
after the optional truncation. -/
structure OfpPacketIn where
  buffer_id : Nat
  total_len : Nat
  in_port : Nat
  reason : Nat
  payload_len : Nat

/-- Embedding of `dp_output_control` (switch/datapath.c:524-549).  The frame
is represented by its abstract identifier `pkt` and its byte length `size`.
The frame is first offered to the buffer cache; only if an ID was issued
(`buffer_id != UINT32_MAX`) and the frame exceeds `max_len` is the payload
truncated — otherwise the whole frame is sent. -/
def dp_output_control (st : BufferState) (now : Nat) (pkt size : Nat)
    (in_port max_len reason : Nat) : BufferState × OfpPacketIn :=
  let r := save_buffer st now pkt
  let buffer_id := r.2
  let newSize := if buffer_id ≠ 0xffffffff ∧ size > max_len then max_len else size
  (r.1, { buffer_id := buffer_id, total_len := size, in_port := in_port,
          reason := reason, payload_len := newSize })

/-- Embedding of the classifier-miss branch of `fwd_port_input`
(switch/datapath.c:761-762): the frame goes to the controller with
`max_len = miss_send_len` and reason OFPR_NO_MATCH. -/
def fwd_port_input_miss (st : BufferState) (now pkt size in_port miss_send_len : Nat) :
    BufferState × OfpPacketIn :=
  dp_output_control st now pkt size in_port miss_send_len OFPR_NO_MATCH

/-- A cache state whose next ring slot (slot 1) is occupied by an entry that
expires at time 10, so a save at time 0 returns no ID. -/
def fullSlotState : BufferState :=
  { buffers := (List.replicate N_PKT_BUFFERS emptyPacketBuffer).set 1 ⟨some 7, 3, 10⟩,
    buffer_idx := 0 }

/-- C5 counterexample: a 1500-byte frame that misses with `miss_send_len =
64` while the buffer cache cannot save it produces a PACKET_IN whose payload
is the whole 1500-byte frame — not truncated to `miss_send_len`. -/
theorem packet_in_miss_not_truncated_on_save_failure :
    ((fwd_port_input_miss fullSlotState 0 99 1500 2 64).2).reason = OFPR_NO_MATCH
    ∧ ((fwd_port_input_miss fullSlotState 0 99 1500 2 64).2).payload_len = 1500
    ∧ ¬ ((fwd_port_input_miss fullSlotState 0 99 1500 2 64).2).payload_len ≤ 64 := by
  refine ⟨by decide, by decide, by decide⟩

/-- C5 amended: a PACKET_IN emitted on a classifier miss has reason NO_MATCH,
carries the ingress port and the frame's original length, and its payload is
truncated to at most `miss_send_len` bytes whenever the frame was saved in
the buffer cache; when no buffer ID was issued the frame is sent whole. -/
theorem packet_in_miss_fields (st : BufferState) (now pkt size in_port msl : Nat) :
    ((fwd_port_input_miss st now pkt size in_port msl).2).reason = OFPR_NO_MATCH
    ∧ ((fwd_port_input_miss st now pkt size in_port msl).2).in_port = in_port
    ∧ ((fwd_port_input_miss st now pkt size in_port msl).2).total_len = size
    ∧ (((fwd_port_input_miss st now pkt size in_port msl).2).buffer_id ≠ 0xffffffff →
        ((fwd_port_input_miss st now pkt size in_port msl).2).payload_len ≤ msl)
    ∧ (((fwd_port_input_miss st now pkt size in_port msl).2).buffer_id = 0xffffffff →
        ((fwd_port_input_miss st now pkt size in_port msl).2).payload_len = size) := by
  unfold fwd_port_input_miss dp_output_control
  refine ⟨rfl, rfl, rfl, ?_, ?_⟩ <;> intro h <;> dsimp only at h ⊢
  · split
    · exact Nat.le_refl _
    · next hc =>
      rcases Decidable.not_and_iff_or_not.mp hc with h1 | h2
      · exact absurd h (by simpa using h1)
      · exact Nat.le_of_not_lt (by simpa [Nat.lt_iff_add_one_le] using h2)
  · split
    · next hc => exact absurd h hc.1
    · rfl

/-- Witness for C5 at a concrete input: fresh cache, 1500-byte frame,
`miss_send_len = 64`; the save succeeds and the payload is at most 64. -/
theorem packet_in_miss_fields_witness :
    ((fwd_port_input_miss initBufferState 0 42 1500 1 64).2).payload_len ≤ 64 :=
  (packet_in_miss_fields initBufferState 0 42 1500 1 64).2.2.2.1 (by decide)

/-! ## Action interpreter (switch/datapath.c:777-839; same loop in
datapath/forward.c:92-139)

`execute_actions` walks the list once, remembering a pending output port
(`prev_port`); at the top of each iteration a pending output is flushed by
cloning the packet and sending the clone, and after the walk a still-pending
output sends the original packet, otherwise the original is freed.  The
embedding records the emitted sends (tagged clone/original), the number of
clones, and whether the original buffer was freed; the in-place packet
rewrites performed by the non-OUTPUT cases do not affect those
observables. -/

inductive OfpAction where
  | output (port max_len : Nat)
  | setDlVlan (vid : Nat)
  | setDlSrc (addr : List Nat)
  | setDlDst (addr : List Nat)
  | setNwSrc (addr : Nat)
  | setNwDst (addr : Nat)
  | setTpSrc (port : Nat)
  | setTpDst (port : Nat)

def OfpAction.isOutput : OfpAction → Bool
  | .output _ _ => true
  | _ => false

/-- Observable effects of one run of the interpreter: the sends performed
(`true` marks a clone of the packet, `false` the original packet itself),
the number of clones made, and whether the original packet was freed. -/
structure ExecTrace where
  sends : List (Bool × Nat × Nat)
  clones : Nat
  freed_original : Bool

/-- The loop of `execute_actions` with its `prev_port`/`max_len` state: a
pending output is flushed with a clone as soon as any further action is
seen; at the end a pending output sends the original, else the original is
freed. -/
def execute_actions_go : List OfpAction → Option (Nat × Nat) → ExecTrace
  | [], none => { sends := [], clones := 0, freed_original := true }
  | [], some (p, m) => { sends := [(false, p, m)], clones := 0, freed_original := false }
  | a :: rest, prev =>
    let flushed : List (Bool × Nat × Nat) :=
      match prev with
      | some (p, m) => [(true, p, m)]
      | none => []
    let nclones : Nat :=
      match prev with
      | some _ => 1
      | none => 0
    let prevNext : Option (Nat × Nat) :=
      match a with
      | .output p m => some (p, m)
      | _ => none
    let r := execute_actions_go rest prevNext
    { sends := flushed ++ r.sends, clones := nclones + r.clones,
      freed_original := r.freed_original }

/-- Embedding of `execute_actions` (switch/datapath.c:777): the loop starts
with `prev_port = -1`, i.e. no pending output. -/
def execute_actions (actions : List OfpAction) : ExecTrace :=
  execute_actions_go actions none

/-- A non-OUTPUT action at the head with no pending output neither sends nor
clones. -/
theorem execute_actions_go_cons_nonoutput (a : OfpAction) (rest : List OfpAction)
    (ha : a.isOutput = false) :
    execute_actions_go (a :: rest) none = execute_actions_go rest none := by
  cases a <;> simp [OfpAction.isOutput] at ha ⊢ <;> simp [execute_actions_go]

/-- C7 counterexample action list: exactly one OUTPUT, followed by a rewrite
action. -/
def c7ActionList : List OfpAction := [.output 2 0, .setDlDst [1, 2, 3, 4, 5, 6]]

/-- C7 counterexample: an action list with exactly one OUTPUT that is not the
final action does clone: the OUTPUT is flushed with a clone when the next
action is reached, and the original is then freed unsent. -/
theorem single_output_clones_counterexample :
    c7ActionList.countP (fun a => a.isOutput) = 1
    ∧ (execute_actions c7ActionList).clones = 1
    ∧ (execute_actions c7ActionList).clones ≠ 0 := by
  refine ⟨by decide, by decide, by decide⟩

/-- C7 amended: when the action list's unique OUTPUT action is its final
action, no clone is performed and the original packet itself is sent to that
output, exactly once; a clone is made whenever any action follows a pending
output. -/
theorem single_trailing_output_no_clone (acts : List OfpAction) (p m : Nat)
    (hlast : acts.getLast? = some (.output p m))
    (hrest : ∀ a ∈ acts.dropLast, a.isOutput = false) :
    (execute_actions acts).clones = 0
    ∧ (execute_actions acts).sends = [(false, p, m)] := by
  induction acts with
  | nil => simp at hlast
  | cons a rest ih =>
    cases rest with
    | nil =>
      simp only [List.getLast?_singleton, Option.some.injEq] at hlast
      subst hlast
      exact ⟨rfl, rfl⟩
    | cons b rest2 =>
      have ha : a.isOutput = false := hrest a (by simp [List.dropLast])
      have hstep : execute_actions (a :: b :: rest2) = execute_actions (b :: rest2) :=
        execute_actions_go_cons_nonoutput a (b :: rest2) ha
      rw [hstep]
      refine ih ?_ ?_
      · simpa using hlast
      · intro x hx
        exact hrest x (by simpa [List.dropLast] using Or.inr hx)

/-- Witness for C7 (amended) at a concrete input: a rewrite followed by a
single trailing OUTPUT performs no clone. -/
theorem single_trailing_output_no_clone_witness :
    (execute_actions [OfpAction.setDlSrc [1], OfpAction.output 2 64]).clones = 0 :=
  (single_trailing_output_no_clone [OfpAction.setDlSrc [1], OfpAction.output 2 64] 2 64
    rfl (by decide)).1

/-- The claim's notion of an execution that ends with a pending output: the
final action of the list is an OUTPUT. -/
def leaves_pending_output (acts : List OfpAction) : Bool :=
  match acts.getLast? with
  | some a => a.isOutput
  | none => false

/-- C10 counterexample: the execution of [OUTPUT(3), SET_DL_SRC] ends with no
pending output and frees the original packet, yet a (cloned) packet was
transmitted to port 3 — so an execution without a pending output at the end
of the walk is not necessarily silent. -/
theorem no_pending_output_still_sends_counterexample :
    leaves_pending_output [OfpAction.output 3 0, OfpAction.setDlSrc [9]] = false
    ∧ (execute_actions [OfpAction.output 3 0, OfpAction.setDlSrc [9]]).freed_original = true
    ∧ (execute_actions [OfpAction.output 3 0, OfpAction.setDlSrc [9]]).sends ≠ [] := by
  refine ⟨by decide, by decide, by decide⟩

/-- C10 amended: if the action list contains no OUTPUT action at all (in
particular the empty list, or a list of rewrite actions only), the packet is
freed and nothing is transmitted on any port or to the controller. -/
theorem no_output_action_drops_packet (acts : List OfpAction)
    (h : ∀ a ∈ acts, a.isOutput = false) :
    (execute_actions acts).sends = []
    ∧ (execute_actions acts).clones = 0
    ∧ (execute_actions acts).freed_original = true := by
  induction acts with
  | nil => exact ⟨rfl, rfl, rfl⟩
  | cons a rest ih =>
    have hstep : execute_actions (a :: rest) = execute_actions rest :=
      execute_actions_go_cons_nonoutput a rest (h a (by simp))
    rw [hstep]
    exact ih (fun x hx => h x (by simp [hx]))

/-- Witness for C10 (amended) at a concrete input: two rewrite actions send
nothing and free the packet. -/
theorem no_output_action_drops_packet_witness :
    (execute_actions [OfpAction.setDlVlan 5, OfpAction.setTpSrc 80]).sends = []
    ∧ (execute_actions [OfpAction.setDlVlan 5, OfpAction.setTpSrc 80]).freed_original
        = true := by
  have h := no_output_action_drops_packet [OfpAction.setDlVlan 5, OfpAction.setTpSrc 80]
    (by decide)
  exact ⟨h.1, h.2.2⟩

/-! ## Control-protocol dispatch (datapath/forward.c:581-659)

The kernel engine checks the header version first — exempting HELLO, ERROR,
ECHO_REQUEST, ECHO_REPLY and VENDOR — then the length field, then looks the
type up in the `packets[]` dispatch array (whose holes, among them ERROR and
VENDOR, yield a BAD_TYPE error).  The per-type minimum sizes are the sizes
of the fixed message structs; openflow.h is not in the tree, so the sizes
follow the spec's dispatch table — no claim depends on them. -/

def sizeof_ofp_header : Nat := 8

def sizeof_ofp_switch_config : Nat := 12

def sizeof_ofp_packet_out : Nat := 16

def sizeof_ofp_flow_mod : Nat := 72

def sizeof_ofp_port_mod : Nat := 40

/-- Outcome of `fwd_control_input` on one message. -/
inductive CtrlResult where
  | badVersionError
  | badLength
  | tooShort
  | handled (htype : Nat)
  | badTypeError

namespace Dk

/-- The kernel dispatch table `packets[]` (datapath/forward.c:592-629): the
minimum acceptable size for each type that has a handler; `none` for array
holes and for types beyond the array. -/
def packets (t : Nat) : Option Nat :=
  if t = OFPT_HELLO then some sizeof_ofp_header
  else if t = OFPT_FEATURES_REQUEST then some sizeof_ofp_header
  else if t = OFPT_GET_CONFIG_REQUEST then some sizeof_ofp_header
  else if t = OFPT_SET_CONFIG then some sizeof_ofp_switch_config
  else if t = OFPT_PACKET_OUT then some sizeof_ofp_packet_out
  else if t = OFPT_FLOW_MOD then some sizeof_ofp_flow_mod
  else if t = OFPT_PORT_MOD then some sizeof_ofp_port_mod
  else if t = OFPT_ECHO_REQUEST then some sizeof_ofp_header
  else if t = OFPT_ECHO_REPLY then some sizeof_ofp_header
  else none

/-- Embedding of the kernel `fwd_control_input` (datapath/forward.c:581-659).
`version` and `htype` are the header bytes, `lenField` the header's length
field in host order, and `length` the number of bytes actually received. -/
def fwd_control_input (version htype lenField length : Nat) : CtrlResult :=
  if version ≠ OFP_VERSION
      ∧ htype ≠ OFPT_HELLO ∧ htype ≠ OFPT_ERROR ∧ htype ≠ OFPT_ECHO_REQUEST
      ∧ htype ≠ OFPT_ECHO_REPLY ∧ htype ≠ OFPT_VENDOR then
    .badVersionError
  else if lenField > length then
    .badLength
  else
    match packets htype with
    | some minSize => if length < minSize then .tooShort else .handled htype
    | none => .badTypeError

end Dk

/-- C1 counterexample: an OFPT_ERROR message carrying a mismatched version is
not dispatched to any handler — it passes the version gate but, having no
entry in the dispatch table, receives a BAD_TYPE error. -/
theorem error_message_not_dispatched :
    Dk.fwd_control_input 0x82 OFPT_ERROR 8 8 = CtrlResult.badTypeError
    ∧ ∀ t : Nat, Dk.fwd_control_input 0x82 OFPT_ERROR 8 8 ≠ CtrlResult.handled t := by
  refine ⟨rfl, ?_⟩
  intro t h
  rw [(rfl : Dk.fwd_control_input 0x82 OFPT_ERROR 8 8 = CtrlResult.badTypeError)] at h
  exact CtrlResult.noConfusion h

/-- C1 amended: in the kernel protocol engine, a version mismatch on any type
other than HELLO, ERROR, ECHO_REQUEST, ECHO_REPLY or VENDOR is rejected with
a BAD_VERSION error without invoking the per-type handler; for those five
types the engine's outcome is independent of the carried version (HELLO and
the ECHO pair reach their handlers; ERROR and VENDOR, which have no handler,
get BAD_TYPE treatment whatever their version). -/
theorem control_version_gate (v t lf l : Nat) :
    (t ≠ OFPT_HELLO → t ≠ OFPT_ERROR → t ≠ OFPT_ECHO_REQUEST → t ≠ OFPT_ECHO_REPLY →
      t ≠ OFPT_VENDOR → v ≠ OFP_VERSION →
      Dk.fwd_control_input v t lf l = CtrlResult.badVersionError)
    ∧ ((t = OFPT_HELLO ∨ t = OFPT_ERROR ∨ t = OFPT_ECHO_REQUEST ∨ t = OFPT_ECHO_REPLY ∨
        t = OFPT_VENDOR) →
      Dk.fwd_control_input v t lf l = Dk.fwd_control_input OFP_VERSION t lf l) := by
  constructor
  · intro h1 h2 h3 h4 h5 hv
    unfold Dk.fwd_control_input
    rw [if_pos ⟨hv, h1, h2, h3, h4, h5⟩]
  · intro ht
    have hnot1 : ¬(v ≠ OFP_VERSION
        ∧ t ≠ OFPT_HELLO ∧ t ≠ OFPT_ERROR ∧ t ≠ OFPT_ECHO_REQUEST
        ∧ t ≠ OFPT_ECHO_REPLY ∧ t ≠ OFPT_VENDOR) := by
      rcases ht with h | h | h | h | h <;> subst h <;> tauto
    have hnot2 : ¬(OFP_VERSION ≠ OFP_VERSION
        ∧ t ≠ OFPT_HELLO ∧ t ≠ OFPT_ERROR ∧ t ≠ OFPT_ECHO_REQUEST
        ∧ t ≠ OFPT_ECHO_REPLY ∧ t ≠ OFPT_VENDOR) := fun hc => hc.1 rfl
    unfold Dk.fwd_control_input
    rw [if_neg hnot1, if_neg hnot2]

/-- Witness for C1 (amended) at concrete inputs: a FLOW_MOD with version 0x82
is version-rejected; a HELLO's outcome does not depend on the version. -/
theorem control_version_gate_witness :
    Dk.fwd_control_input 0x82 OFPT_FLOW_MOD 72 72 = CtrlResult.badVersionError
    ∧ Dk.fwd_control_input 0x82 OFPT_HELLO 8 8
        = Dk.fwd_control_input OFP_VERSION OFPT_HELLO 8 8 :=
  ⟨(control_version_gate 0x82 OFPT_FLOW_MOD 72 72).1 (by decide) (by decide) (by decide)
      (by decide) (by decide) (by decide),
   (control_version_gate 0x82 OFPT_HELLO 8 8).2 (Or.inl rfl)⟩

/-! ## FLOW_MOD(ADD) loop prevention (datapath/forward.c:433-501 versus
switch/datapath.c:1040-1097)

The kernel `add_flow` scans the action list and rejects the message before
anything is installed when it finds an OUTPUT to OFPP_TABLE, OFPP_NONE, or
the message's own `match.in_port`; the user-space `add_flow` has no such
scan — it checks only the action count.  Both are embedded; the outcome of
`chain_insert` (the chain and its tables are separate modules) is supplied
as the `insert_error` argument, 0 meaning some table accepted the entry, and
`retrieved` tells whether a referenced buffer ID was still live. -/

/-- The fields of `struct ofp_flow_mod` read by the two ADD paths. -/
structure OfpFlowMod where
  in_port : Nat
  buffer_id : Nat
  actions : List OfpAction

/-- Observable outcome of an `add_flow` call: the returned error (0 on
success), whether the chain received the entry, and whether a referenced
buffer was discarded on the error path. -/
structure AddFlowResult where
  error : Int
  inserted : Bool
  buffer_discarded : Bool

/-- The loop-prevention test of the kernel `add_flow`
(datapath/forward.c:447-457): OUTPUT to OFPP_TABLE, OFPP_NONE or the
message's own ingress port. -/
def loops_to_table_none_or_ingress (in_port : Nat) (a : OfpAction) : Bool :=
  match a with
  | .output p _ => decide (p = OFPP_TABLE ∨ p = OFPP_NONE ∨ p = in_port)
  | _ => false

/-- Embedding of the kernel `add_flow` (datapath/forward.c:433-501).  A
message with a looping OUTPUT action takes the error exit before the flow is
allocated: nothing is inserted, the referenced buffer (if any) is discarded,
and the pre-set error `-ENOMEM` is returned. -/
def Dk.add_flow (insert_error : Int) (retrieved : Bool) (ofm : OfpFlowMod) :
    AddFlowResult :=
  if ofm.actions.any (loops_to_table_none_or_ingress ofm.in_port) then
    { error := -12, inserted := false, buffer_discarded := ofm.buffer_id ≠ 0xffffffff }
  else if insert_error ≠ 0 then
    { error := insert_error, inserted := false,
      buffer_discarded := ofm.buffer_id ≠ 0xffffffff }
  else if ofm.buffer_id ≠ 0xffffffff then
    if retrieved then { error := 0, inserted := true, buffer_discarded := false }
    else { error := -3, inserted := true, buffer_discarded := false }
  else
    { error := 0, inserted := true, buffer_discarded := false }

/-- The user-space action-count bound MAX_ACTIONS (the defining header is
not in the tree; the spec gives the implementation maximum as 16). -/
def MAX_ACTIONS : Nat := 16

/-- Embedding of the user-space `add_flow` (switch/datapath.c:1040-1097): it
bounds the action count but performs no loop-prevention scan of the action
list before offering the flow to the chain. -/
def Sw.add_flow (insert_error : Int) (retrieved : Bool) (ofm : OfpFlowMod) :
    AddFlowResult :=
  if ofm.actions.length > MAX_ACTIONS then
    { error := -7, inserted := false, buffer_discarded := ofm.buffer_id ≠ 0xffffffff }
  else if insert_error ≠ 0 then
    { error := insert_error, inserted := false,
      buffer_discarded := ofm.buffer_id ≠ 0xffffffff }
  else if ofm.buffer_id ≠ 0xffffffff then
    if retrieved then { error := 0, inserted := true, buffer_discarded := false }
    else { error := -3, inserted := true, buffer_discarded := false }
  else
    { error := 0, inserted := true, buffer_discarded := false }

/-- A FLOW_MOD(ADD) whose single action is OUTPUT(TABLE). -/
def loopFlowMod : OfpFlowMod :=
  { in_port := 1, buffer_id := 0xffffffff, actions := [.output OFPP_TABLE 0] }

/-- C2 counterexample: the user-space switch installs a flow whose action
list is exactly [OUTPUT(TABLE)] — the chain receives the entry and the
handler returns success, not an error. -/
theorem userspace_add_flow_installs_loop :
    loopFlowMod.actions.any (loops_to_table_none_or_ingress loopFlowMod.in_port) = true
    ∧ (Sw.add_flow 0 true loopFlowMod).error = 0
    ∧ (Sw.add_flow 0 true loopFlowMod).inserted = true := by
  refine ⟨by decide, by decide, by decide⟩

/-- C2 amended: in the kernel datapath, a FLOW_MOD(ADD) whose action list
contains an OUTPUT to the TABLE port, the NONE port, or the message's own
ingress port is rejected at install time — whatever the chain would have
said, no entry is inserted and the handler returns an error. -/
theorem add_flow_rejects_looping_output (ie : Int) (r : Bool) (ofm : OfpFlowMod)
    (h : ofm.actions.any (loops_to_table_none_or_ingress ofm.in_port) = true) :
    (Dk.add_flow ie r ofm).error ≠ 0 ∧ (Dk.add_flow ie r ofm).inserted = false := by
  unfold Dk.add_flow
  rw [if_pos h]
  exact ⟨by show (-12 : Int) ≠ 0; decide, rfl⟩

/-- Witness for C2 (amended) at a concrete input: the kernel rejects
[OUTPUT(TABLE)] even when the chain would accept. -/
theorem add_flow_rejects_looping_output_witness :
    (Dk.add_flow 0 true loopFlowMod).error ≠ 0
    ∧ (Dk.add_flow 0 true loopFlowMod).inserted = false :=
  add_flow_rejects_looping_output 0 true loopFlowMod (by decide)

/-! ## FLOW_EXPIRED emission on timeout (datapath/table-hash.c:115-134 versus
switch/datapath.c:247-265, 616-628) -/

def byteAt (pkt : List Nat) (i : Nat) : Nat := pkt.getD i 0 % 256

def read16 (pkt : List Nat) (i : Nat) : Nat := byteAt pkt i * 256 + byteAt pkt (i + 1)

def read32 (pkt : List Nat) (i : Nat) : Nat := read16 pkt i * 65536 + read16 pkt (i + 2)

/-- Embedding of the user-space `flow_extract` (lib/flow.c:16-103).  The flow
is zeroed up front (`memset`), so every early return leaves the untouched
fields zero.  Byte offsets: Ethernet destination 0-5, source 6-11,
type/length 12-13; an LLC header is 3 bytes, an LLC+SNAP header 8 bytes with
the OUI at bytes 3-5 and the SNAP type at bytes 6-7 (DSAP = SSAP = 0xaa,
control = 0x03, SNAP_ORG_ETHERNET = 00:00:00); a VLAN header is 4 bytes
(TCI then encapsulated type).  The VLAN read mirrors the source, which does
not check `buffer_at`'s result there.  Note what this parser does NOT do:
it never looks at the IPv4 fragment-offset word, and a failed transport
bounds check leaves `nw_proto` as read from the IP header. -/
def Sw.flow_extract (pkt : List Nat) (inp : Nat) : Flow :=
  let f0 : Flow :=
    { in_port := inp, dl_vlan := 0, dl_src := List.replicate 6 0,
      dl_dst := List.replicate 6 0, dl_type := 0, nw_src := 0, nw_dst := 0,
      nw_proto := 0, tp_src := 0, tp_dst := 0 }
  if pkt.length < 14 then f0
  else
    let ethType := read16 pkt 12
    let step : Option (Nat × Nat) :=
      if OFP_DL_TYPE_ETH2_CUTOFF ≤ ethType then some (ethType, 14)
      else if pkt.length < 14 + 8 then none
      else if byteAt pkt 14 = 0xaa ∧ byteAt pkt 15 = 0xaa ∧ byteAt pkt 16 = 0x03
          ∧ byteAt pkt 17 = 0 ∧ byteAt pkt 18 = 0 ∧ byteAt pkt 19 = 0 then
        some (read16 pkt 20, 14 + 8)
      else
        some (OFP_DL_TYPE_NOT_ETH_TYPE, 14 + 3)
    match step with
    | none => f0
    | some (dlt0, ofs0) =>
      let dlt1 := if dlt0 = ETH_TYPE_VLAN then read16 pkt (ofs0 + 2) else dlt0
      let vlan := if dlt0 = ETH_TYPE_VLAN then read16 pkt ofs0 &&& VLAN_VID
                  else OFP_VLAN_NONE
      let ofs1 := if dlt0 = ETH_TYPE_VLAN then ofs0 + 4 else ofs0
      let f1 : Flow :=
        { f0 with
          dl_type := dlt1,
          dl_vlan := vlan,
          dl_src := (List.range 6).map (fun k => byteAt pkt (6 + k)),
          dl_dst := (List.range 6).map (fun k => byteAt pkt k) }
      if dlt1 = ETH_TYPE_IP then
        if ofs1 + 20 ≤ pkt.length then
          let proto := byteAt pkt (ofs1 + 9)
          let f2 : Flow :=
            { f1 with
              nw_src := read32 pkt (ofs1 + 12),
              nw_dst := read32 pkt (ofs1 + 16),
              nw_proto := proto }
          if proto = IP_TYPE_TCP ∨ proto = IP_TYPE_UDP then
            let udp_ofs := byteAt pkt ofs1 % 16 * 4
            if ofs1 + udp_ofs + 8 ≤ pkt.length then
              { f2 with
                tp_src := read16 pkt (ofs1 + udp_ofs),
                tp_dst := read16 pkt (ofs1 + udp_ofs + 2) }
            else f2
          else f2
        else f1
      else if dlt1 = ETH_TYPE_ARP then
        if ofs1 + 28 ≤ pkt.length ∧ read16 pkt ofs1 = 1
            ∧ read16 pkt (ofs1 + 2) = ETH_TYPE_IP
            ∧ byteAt pkt (ofs1 + 4) = 6 ∧ byteAt pkt (ofs1 + 5) = 4 then
          { f1 with
            nw_src := read32 pkt (ofs1 + 14),
            nw_dst := read32 pkt (ofs1 + 24) }
        else f1
      else f1

/-- Embedding of the kernel `tcphdr_ok` (datapath/flow.c:234-243): the fixed
TCP header must fit, and the data-offset field (high nibble of byte 12 of
the TCP header, in 32-bit words) must be sane and covered. -/
def Dk.tcphdr_ok (pkt : List Nat) (th_ofs : Nat) : Bool :=
  if th_ofs + 20 ≤ pkt.length then
    decide (20 ≤ byteAt pkt (th_ofs + 12) / 16 * 4
      ∧ th_ofs + byteAt pkt (th_ofs + 12) / 16 * 4 ≤ pkt.length)
  else false

/-- Embedding of the kernel `udphdr_ok` (datapath/flow.c:245-249). -/
def Dk.udphdr_ok (pkt : List Nat) (th_ofs : Nat) : Bool :=
  decide (th_ofs + 8 ≤ pkt.length)

/-- The kernel parser's L2 stage: data-link type, VLAN id, and the network
header offset.  Ethernet II when the type/length field is at least 0x0600;
otherwise the SNAP helper `snap_get_ethertype` (snap.h, which is not in the
tree) is modelled from the spec — a SNAP header with OUI 00:00:00 exposes
the encapsulated EtherType, anything else yields the 0x05ff sentinel past a
3-byte LLC header.  A 0x8100 type then peels one VLAN header. -/
def Dk.parse_l2v (pkt : List Nat) : Nat × Nat × Nat :=
  let hproto := read16 pkt 12
  let dlt0 := if OFP_DL_TYPE_ETH2_CUTOFF ≤ hproto then hproto
    else if byteAt pkt 14 = 0xaa ∧ byteAt pkt 15 = 0xaa ∧ byteAt pkt 16 = 0x03
        ∧ byteAt pkt 17 = 0 ∧ byteAt pkt 18 = 0 ∧ byteAt pkt 19 = 0 then
      read16 pkt 20
    else OFP_DL_TYPE_NOT_ETH_TYPE
  let nh_ofs := if OFP_DL_TYPE_ETH2_CUTOFF ≤ hproto then 14
    else if byteAt pkt 14 = 0xaa ∧ byteAt pkt 15 = 0xaa ∧ byteAt pkt 16 = 0x03
        ∧ byteAt pkt 17 = 0 ∧ byteAt pkt 18 = 0 ∧ byteAt pkt 19 = 0 then
      14 + 8
    else 14 + 3
  if dlt0 ≠ ETH_TYPE_VLAN then (dlt0, OFP_VLAN_NONE, nh_ofs)
  else (read16 pkt (nh_ofs + 2), read16 pkt nh_ofs &&& VLAN_VID, nh_ofs + 4)

/-- Embedding of the kernel `flow_extract` (datapath/flow.c:254-356).
Returns the key and the fragment indicator (the C function's return value:
1 when the frame is an IP fragment).  Transport ports are read only inside
the branch where the fragment-offset/more-fragments word is zero and the
transport header passes its bounds check; a failed bounds check takes the
`no_proto` exit, which zeroes `nw_proto` and both ports. -/
def Dk.flow_extract (pkt : List Nat) (inp : Nat) : Flow × Bool :=
  match Dk.parse_l2v pkt with
  | (dlt1, vlan, nh1) =>
    let fbase : Flow :=
      { in_port := inp, dl_vlan := vlan,
        dl_src := (List.range 6).map (fun k => byteAt pkt (6 + k)),
        dl_dst := (List.range 6).map (fun k => byteAt pkt k),
        dl_type := dlt1, nw_src := 0, nw_dst := 0, nw_proto := 0,
        tp_src := 0, tp_dst := 0 }
    if dlt1 = ETH_TYPE_IP then
      let proto := byteAt pkt (nh1 + 9)
      let th_ofs := nh1 + byteAt pkt nh1 % 16 * 4
      let fIP : Flow :=
        { fbase with
          nw_src := read32 pkt (nh1 + 12),
          nw_dst := read32 pkt (nh1 + 16),
          nw_proto := proto }
      if read16 pkt (nh1 + 6) &&& (IP_MF ||| IP_OFFSET) = 0 then
        if proto = IP_TYPE_TCP then
          if Dk.tcphdr_ok pkt th_ofs then
            ({ fIP with
               tp_src := read16 pkt th_ofs,
               tp_dst := read16 pkt (th_ofs + 2) }, false)
          else
            ({ fIP with nw_proto := 0, tp_src := 0, tp_dst := 0 }, false)
        else if proto = IP_TYPE_UDP then
          if Dk.udphdr_ok pkt th_ofs then
            ({ fIP with
               tp_src := read16 pkt th_ofs,
               tp_dst := read16 pkt (th_ofs + 2) }, false)
          else
            ({ fIP with nw_proto := 0, tp_src := 0, tp_dst := 0 }, false)
        else
          ({ fIP with tp_src := 0, tp_dst := 0 }, false)
      else
        ({ fIP with tp_src := 0, tp_dst := 0 }, true)
    else
      ({ fbase with
         nw_src := 0, nw_dst := 0, nw_proto := 0, tp_src := 0, tp_dst := 0 }, false)

/-- A 54-byte Ethernet II IPv4/TCP frame whose IP header has the
more-fragments bit set (fragment word 0x2000) and TCP source port 0x1234. -/
def fragPkt : List Nat :=
  [0x00, 0x00, 0x00, 0x00, 0x00, 0x02,
   0x00, 0x00, 0x00, 0x00, 0x00, 0x01,
   0x08, 0x00,
   0x45, 0x00, 0x00, 0x28, 0x00, 0x00, 0x20, 0x00, 0x40, 0x06, 0x00, 0x00,
   0x0a, 0x00, 0x00, 0x01, 0x0a, 0x00, 0x00, 0x02,
   0x12, 0x34, 0x00, 0x50, 0x00, 0x00, 0x00, 0x00, 0x00, 0x00, 0x00, 0x00,
   0x50, 0x00, 0x00, 0x00, 0x00, 0x00, 0x00, 0x00]

/-- C4 counterexample: on an IPv4 fragment (more-fragments bit set), the
user-space parser still reads the L4 port fields into the key — lib/flow.c
never consults the fragment-offset word (and reports no fragment
indication). -/
theorem userspace_flow_extract_reads_fragment_ports :
    read16 fragPkt (14 + 6) &&& (IP_MF ||| IP_OFFSET) ≠ 0
    ∧ (Sw.flow_extract fragPkt 1).dl_type = ETH_TYPE_IP
    ∧ (Sw.flow_extract fragPkt 1).tp_src = 0x1234
    ∧ (Sw.flow_extract fragPkt 1).tp_src ≠ 0 := by
  refine ⟨by decide, by decide, by decide, by decide⟩

/-- C4 amended (kernel parser, datapath/flow.c): transport ports are read
only for an IPv4 frame whose fragment word is clear; a fragment is reported
through the return value with both ports zero; a non-IPv4 frame has both
ports zero; and a TCP/UDP bounds-check failure zeroes `nw_proto` and both
ports. -/
theorem kernel_flow_extract_transport_guard (pkt : List Nat) (inp dlt1 vl nh1 : Nat)
    (hparse : Dk.parse_l2v pkt = (dlt1, vl, nh1)) :
    (dlt1 ≠ ETH_TYPE_IP →
      (Dk.flow_extract pkt inp).1.tp_src = 0
      ∧ (Dk.flow_extract pkt inp).1.tp_dst = 0
      ∧ (Dk.flow_extract pkt inp).2 = false)
    ∧ (dlt1 = ETH_TYPE_IP →
        read16 pkt (nh1 + 6) &&& (IP_MF ||| IP_OFFSET) ≠ 0 →
      (Dk.flow_extract pkt inp).2 = true
      ∧ (Dk.flow_extract pkt inp).1.tp_src = 0
      ∧ (Dk.flow_extract pkt inp).1.tp_dst = 0)
    ∧ (dlt1 = ETH_TYPE_IP →
        read16 pkt (nh1 + 6) &&& (IP_MF ||| IP_OFFSET) = 0 →
        byteAt pkt (nh1 + 9) = IP_TYPE_TCP →
        Dk.tcphdr_ok pkt (nh1 + byteAt pkt nh1 % 16 * 4) = false →
      (Dk.flow_extract pkt inp).1.nw_proto = 0
      ∧ (Dk.flow_extract pkt inp).1.tp_src = 0
      ∧ (Dk.flow_extract pkt inp).1.tp_dst = 0)
    ∧ (dlt1 = ETH_TYPE_IP →
        read16 pkt (nh1 + 6) &&& (IP_MF ||| IP_OFFSET) = 0 →
        byteAt pkt (nh1 + 9) = IP_TYPE_UDP →
        Dk.udphdr_ok pkt (nh1 + byteAt pkt nh1 % 16 * 4) = false →
      (Dk.flow_extract pkt inp).1.nw_proto = 0
      ∧ (Dk.flow_extract pkt inp).1.tp_src = 0
      ∧ (Dk.flow_extract pkt inp).1.tp_dst = 0) := by
  refine ⟨?_, ?_, ?_, ?_⟩
  · intro hip
    unfold Dk.flow_extract
    rw [hparse]
    simp [hip]
  · intro hip hfrag
    unfold Dk.flow_extract
    rw [hparse]
    subst hip
    simp [hfrag]
  · intro hip hfrag hproto hok
    unfold Dk.flow_extract
    rw [hparse]
    subst hip
    simp [hfrag, hproto, hok]
  · intro hip hfrag hproto hok
    unfold Dk.flow_extract
    rw [hparse]
    subst hip
    simp [hfrag, hproto, hok, (by decide : ¬ (IP_TYPE_UDP = IP_TYPE_TCP))]

/-- Witness for C4 (amended) at a concrete input: on the fragment frame, the
kernel parser reports a fragment and leaves both ports zero. -/
theorem kernel_flow_extract_transport_guard_witness :
    (Dk.flow_extract fragPkt 1).2 = true
    ∧ (Dk.flow_extract fragPkt 1).1.tp_src = 0
    ∧ (Dk.flow_extract fragPkt 1).1.tp_dst = 0 :=
  (kernel_flow_extract_transport_guard fragPkt 1 ETH_TYPE_IP OFP_VLAN_NONE 14
    (by decide)).2.1 (by decide) (by decide)

end OpenFlow
